import Mathlib

/-!
Shallow embedding of `src/components/EditTask.tsx` from the TodoApp
repository: a React dialog component for editing a task.

Modelling conventions:

* A runtime task object is a record of optional fields (`TaskObj`).  In the
  TypeScript source several spread expressions such as
  `{...(prevTask as Task), emoji}` may spread `undefined`, which in
  JavaScript yields an object whose other properties are all `undefined`;
  making every field optional lets the embedding reproduce that exactly
  (`spreadPrev` below).
* `Category` values are opaque references in the source; they are modelled
  as `Nat`.
* The component's React `useState` hooks become fields of `EditTaskState`.
  `document.body.style.overflow` (a global the component writes) is
  modelled as the field `bodyOverflow`.
* Each `useEffect` becomes a function on the state.  React runs an effect
  when its dependency changes (and once on mount); in this component every
  handler that writes a dependency is immediately followed in the model by
  the corresponding effect.  Where the source would skip the effect because
  the dependency is reference-equal, running it anyway is value-preserving
  (the effect only rewrites the field with the same value), so the model
  always composes the effect in.
* On mount all three effects run once, in declaration order: the emoji
  effect, the task effect, then the categories effect.  The categories
  effect fires again after the task effect changes `selectedCategories`;
  since it only writes the `category` field, the net mount result equals a
  single run of each effect in declaration order (`dialogOpen`).
* Calls to the caller-supplied callbacks `onSave`/`onClose` and to the
  toast library are modelled as a list of emitted `Out` values.
* `TASK_NAME_MAX_LENGTH` and `DESCRIPTION_MAX_LENGTH` come from
  `../constants`, a module not among the reviewed sources; they are kept as
  explicit `Nat` parameters (`nMax`, `dMax`) of the input handler.
-/

/-- A JavaScript task object at runtime: every property may be `undefined`
(modelled as `none`).  Mirrors the fields of `Task` used by
`EditTask.tsx`. -/
structure TaskObj where
  id : Option Nat
  name : Option String
  description : Option String
  deadline : Option String
  emoji : Option String
  color : Option String
  category : Option (List Nat)
  lastSave : Option String
deriving Repr, DecidableEq

/-- The empty object `{}`; result of spreading `undefined`. -/
def TaskObj.emptyObj : TaskObj :=
  { id := none, name := none, description := none, deadline := none,
    emoji := none, color := none, category := none, lastSave := none }

/-- `{...(prevTask as Task)}`: spreading a possibly-`undefined` object. -/
def spreadPrev (prevTask : Option TaskObj) : TaskObj :=
  prevTask.getD TaskObj.emptyObj

/-- The three form fields wired to `handleInputChange` via their `name`
attribute ("name", "description", "deadline"). -/
inductive FormField where
  | name
  | description
  | deadline
deriving Repr, DecidableEq

/-- The component's local state (its `useState` hooks), the `task` prop it
currently sees, and the global `document.body.style.overflow`. -/
structure EditTaskState where
  task : Option TaskObj
  editedTask : Option TaskObj
  nameError : Bool
  descriptionError : Bool
  emoji : Option String
  selectedCategories : Option (List Nat)
  bodyOverflow : String
deriving Repr, DecidableEq

/-- Observable calls the component makes to its collaborators: the
`onSave` callback, the success toast (carrying `editedTask.name`), and the
`onClose` callback. -/
inductive Out where
  | onSave (t : TaskObj)
  | toastSuccess (taskName : Option String)
  | onClose
deriving Repr, DecidableEq

/-- `(selectedCategories as Category[]) || undefined` from the categories
effect.  In JavaScript every array is truthy, including `[]`, so this
returns the array whenever it is present and `undefined` only when
`selectedCategories` is `undefined`. -/
def jsArrayOrUndefined (x : Option (List Nat)) : Option (List Nat) :=
  match x with
  | none => none
  | some a => some a

/-- Effect hook on `[emoji]` (source lines 37–42): merge the emoji local
state into the draft. -/
def emojiEffect (s : EditTaskState) : EditTaskState :=
  { s with editedTask := some { spreadPrev s.editedTask with emoji := s.emoji } }

/-- Effect hook on `[task]` (source lines 44–48): reset the draft to the
task prop and the selected categories to `task?.category`. -/
def taskEffect (s : EditTaskState) : EditTaskState :=
  { s with editedTask := s.task,
           selectedCategories := s.task.bind TaskObj.category }

/-- Effect hook on `[selectedCategories]` (source lines 91–96): overwrite
the draft's `category` with `selectedCategories || undefined`. -/
def categoriesEffect (s : EditTaskState) : EditTaskState :=
  let t := { spreadPrev s.editedTask with
             category := jsArrayOrUndefined s.selectedCategories }
  { s with editedTask := some t }

/-- `{...prev, [name]: value}`: the field-name-keyed draft update inside
`handleInputChange`. -/
def setTextField (f : FormField) (v : String) (o : TaskObj) : TaskObj :=
  match f with
  | FormField.name => { o with name := some v }
  | FormField.description => { o with description := some v }
  | FormField.deadline => { o with deadline := some v }

/-- `handleInputChange` (source lines 51–71): recompute both error flags
from the changed field, then merge the new value into the draft.  `nMax`
and `dMax` stand for `TASK_NAME_MAX_LENGTH` and `DESCRIPTION_MAX_LENGTH`. -/
def handleInputChange (nMax dMax : Nat) (f : FormField) (v : String)
    (s : EditTaskState) : EditTaskState :=
  let ne : Bool := if f = FormField.name ∧ v.length > nMax then true else false
  let de : Bool := if f = FormField.description ∧ v.length > dMax then true else false
  { s with nameError := ne,
           descriptionError := de,
           editedTask := some (setTextField f v (spreadPrev s.editedTask)) }

/-- `handleSave` (source lines 73–83): unconditionally set
`document.body.style.overflow = "auto"`, then, if the draft is present and
both error flags are clear, call `onSave` with the draft and show the
success toast naming the task. -/
def handleSave (s : EditTaskState) : EditTaskState × List Out :=
  let s1 := { s with bodyOverflow := "auto" }
  match s1.editedTask with
  | some t =>
      if s1.nameError = false ∧ s1.descriptionError = false then
        (s1, [Out.onSave t, Out.toastSuccess t.name])
      else
        (s1, [])
  | none => (s1, [])

/-- `handleCancel` (source lines 85–89): call `onClose`, reset the draft to
the task prop and the selection to `task?.category`; the categories effect
then fires on the changed selection. -/
def handleCancel (s : EditTaskState) : EditTaskState × List Out :=
  (categoriesEffect
     { s with editedTask := s.task,
              selectedCategories := s.task.bind TaskObj.category },
   [Out.onClose])

/-- The `Dialog onClose` handler (source lines 101–105), the
backdrop/escape dismissal path; its body is identical to `handleCancel`. -/
def dialogOnClose (s : EditTaskState) : EditTaskState × List Out :=
  (categoriesEffect
     { s with editedTask := s.task,
              selectedCategories := s.task.bind TaskObj.category },
   [Out.onClose])

/-- The emoji sub-widget reporting a pick via `setEmoji`; the emoji effect
fires on the changed value. -/
def stepSetEmoji (e : Option String) (s : EditTaskState) : EditTaskState :=
  emojiEffect { s with emoji := e }

/-- The category sub-widget reporting a new selection via
`setSelectedCategories`; the categories effect fires on the changed
value. -/
def stepSetCategories (cats : Option (List Nat)) (s : EditTaskState) :
    EditTaskState :=
  categoriesEffect { s with selectedCategories := cats }

/-- The `task` prop changing while the component is mounted: the task
effect runs, and the categories effect fires on the changed selection. -/
def stepTaskChange (t : Option TaskObj) (s : EditTaskState) : EditTaskState :=
  categoriesEffect (taskEffect { s with task := t })

/-- The deadline clear button (source lines 183–191): unset the draft's
`deadline` field only. -/
def stepClearDeadline (s : EditTaskState) : EditTaskState :=
  { s with editedTask := some { spreadPrev s.editedTask with deadline := none } }

/-- The color picker callback (source lines 212–217): overwrite the draft's
`color` field. -/
def stepSetColor (c : String) (s : EditTaskState) : EditTaskState :=
  { s with editedTask := some { spreadPrev s.editedTask with color := some c } }

/-- State before the first render: `useState` initial values
(`editedTask := task`, flags `false`, `emoji := undefined`,
`selectedCategories := []`).  `ov` is whatever
`document.body.style.overflow` currently holds. -/
def initialState (task : Option TaskObj) (ov : String) : EditTaskState :=
  { task := task, editedTask := task, nameError := false,
    descriptionError := false, emoji := none,
    selectedCategories := some [], bodyOverflow := ov }

/-- Settled state right after the dialog mounts with the given task: the
three mount effects run in declaration order (emoji, task, categories); the
categories effect's re-fire after the task effect nets to a single run. -/
def dialogOpen (task : Option TaskObj) (ov : String) : EditTaskState :=
  categoriesEffect (taskEffect (emojiEffect (initialState task ov)))

/-- The Save button's `disabled` attribute (source line 229):
`nameError || editedTask?.name === ""`. -/
def saveDisabled (s : EditTaskState) : Bool :=
  s.nameError || ((s.editedTask.bind TaskObj.name) == some "")

/-- User-driven events while the dialog is open. -/
inductive Event where
  | input (f : FormField) (v : String)
  | pickEmoji (e : Option String)
  | setCategories (cats : Option (List Nat))
  | clearDeadline
  | setColor (c : String)
  | taskChange (t : Option TaskObj)
deriving Repr, DecidableEq

/-- One state transition per event. -/
def stepEvent (nMax dMax : Nat) (ev : Event) (s : EditTaskState) :
    EditTaskState :=
  match ev with
  | Event.input f v => handleInputChange nMax dMax f v s
  | Event.pickEmoji e => stepSetEmoji e s
  | Event.setCategories cats => stepSetCategories cats s
  | Event.clearDeadline => stepClearDeadline s
  | Event.setColor c => stepSetColor c s
  | Event.taskChange t => stepTaskChange t s

/-- A sequence of events applied in order. -/
def runEvents (nMax dMax : Nat) (evs : List Event) (s : EditTaskState) :
    EditTaskState :=
  evs.foldl (fun s ev => stepEvent nMax dMax ev s) s

/-- A concrete task used to instantiate the theorems below. -/
def sampleTask : TaskObj :=
  { id := some 1, name := some "Buy milk", description := some "groceries",
    deadline := some "2024-06-01T10:00", emoji := some "1f600",
    color := some "#ffffff", category := some [1, 2],
    lastSave := some "2024-05-01T09:00" }

/-- A second concrete task, sharing no field values with `sampleTask`. -/
def sampleTask2 : TaskObj :=
  { id := some 2, name := some "Walk dog", description := none,
    deadline := none, emoji := none, color := some "#000000",
    category := none, lastSave := none }

/-- The settled state just after opening the dialog on `sampleTask`. -/
def openState : EditTaskState := dialogOpen (some sampleTask) "hidden"

/-- `openState` after typing an 11-character name with the maximum set to 5:
the name-too-long flag is raised. -/
def nameErrState : EditTaskState :=
  handleInputChange 5 350 FormField.name "toolongname" openState

/-- `openState` after clearing the name field: empty name, no flags. -/
def emptyNameState : EditTaskState :=
  handleInputChange 30 350 FormField.name "" openState

/-- `openState` with the description-too-long flag forced on. -/
def blockedState : EditTaskState := { openState with descriptionError := true }

theorem jsArrayOrUndefined_id (x : Option (List Nat)) : jsArrayOrUndefined x = x := by
  cases x <;> rfl

/-- C1: invoking the save action when the draft is present and both
validation flags are false calls `onSave` exactly once with the current
draft — the result of all edits made since the dialog opened — and shows
one success toast referencing the draft's name. -/
theorem C1_valid_save_invokes_onSave_once (nMax dMax : Nat) (ov : String)
    (evs : List Event) (t d : TaskObj)
    (hdraft : (runEvents nMax dMax evs (dialogOpen (some t) ov)).editedTask = some d)
    (hn : (runEvents nMax dMax evs (dialogOpen (some t) ov)).nameError = false)
    (hd : (runEvents nMax dMax evs (dialogOpen (some t) ov)).descriptionError = false) :
    (handleSave (runEvents nMax dMax evs (dialogOpen (some t) ov))).2
      = [Out.onSave d, Out.toastSuccess d.name] := by
  simp [handleSave, hdraft, hn, hd]

/-- Witness for C1 at `sampleTask` with no intervening edits. -/
theorem C1_valid_save_invokes_onSave_once_witness :
    (handleSave (runEvents 30 350 [] (dialogOpen (some sampleTask) "hidden"))).2
      = [Out.onSave sampleTask, Out.toastSuccess sampleTask.name] :=
  C1_valid_save_invokes_onSave_once 30 350 "hidden" [] sampleTask sampleTask
    (by decide) (by decide) (by decide)

/-- C2: after any sequence of user edits, a change of the `task` prop
replaces the whole draft and the selected-categories list with the new
task's values (no field of the previous draft survives), and at
dialog-open time the draft equals the supplied task. -/
theorem C2_task_change_replaces_draft (nMax dMax : Nat) (ov : String)
    (evs : List Event) (t0 t : TaskObj) :
    ((stepTaskChange (some t) (runEvents nMax dMax evs (dialogOpen (some t0) ov))).editedTask
        = some t
      ∧ (stepTaskChange (some t) (runEvents nMax dMax evs (dialogOpen (some t0) ov))).selectedCategories
        = t.category)
    ∧ ((dialogOpen (some t) ov).editedTask = some t
      ∧ (dialogOpen (some t) ov).selectedCategories = t.category) := by
  refine ⟨⟨?_, ?_⟩, ?_, ?_⟩ <;>
    simp [stepTaskChange, dialogOpen, categoriesEffect, taskEffect, emojiEffect,
          initialState, spreadPrev, jsArrayOrUndefined_id]

/-- C3: the Save button is disabled exactly when the name-too-long flag is
set or the draft's name is the empty string; the description-too-long flag
never affects the disabled state, yet with it set the save handler emits
nothing (no `onSave`). -/
theorem C3_save_disabled_characterization (s : EditTaskState) (b : Bool) :
    (saveDisabled s = true
      ↔ (s.nameError = true ∨ s.editedTask.bind TaskObj.name = some ""))
    ∧ saveDisabled { s with descriptionError := b } = saveDisabled s
    ∧ (handleSave { s with descriptionError := true }).2 = [] := by
  refine ⟨?_, rfl, ?_⟩
  · simp [saveDisabled]
  · cases h : s.editedTask <;> simp [handleSave, h]

/-- Witness for C3 at `openState`. -/
theorem C3_save_disabled_characterization_witness :
    (saveDisabled openState = true
      ↔ (openState.nameError = true ∨ openState.editedTask.bind TaskObj.name = some ""))
    ∧ saveDisabled { openState with descriptionError := true } = saveDisabled openState
    ∧ (handleSave { openState with descriptionError := true }).2 = [] :=
  C3_save_disabled_characterization openState true

/-- C4: after an input-change event on the name field with a value longer
than `TASK_NAME_MAX_LENGTH` (`nMax`), the name error flag is true and the
Save button is disabled. -/
theorem C4_long_name_error_and_disabled (nMax dMax : Nat) (v : String)
    (s : EditTaskState) (h : v.length > nMax) :
    (handleInputChange nMax dMax FormField.name v s).nameError = true
    ∧ saveDisabled (handleInputChange nMax dMax FormField.name v s) = true := by
  constructor <;> simp [handleInputChange, saveDisabled, h]

/-- Witness for C4: an 11-character name against a maximum of 5. -/
theorem C4_long_name_error_and_disabled_witness :
    (handleInputChange 5 350 FormField.name "toolongname" openState).nameError = true
    ∧ saveDisabled (handleInputChange 5 350 FormField.name "toolongname" openState) = true :=
  C4_long_name_error_and_disabled 5 350 "toolongname" openState (by decide)

/-- C5 counterexample: setting the selection to the empty list leaves the
draft's category field equal to `some []`, not unset — in JavaScript `[]`
is truthy, so `selectedCategories || undefined` keeps the empty array. -/
theorem C5_counterexample_empty_list_kept :
    (stepSetCategories (some []) openState).editedTask.bind TaskObj.category = some []
    ∧ (stepSetCategories (some []) openState).editedTask.bind TaskObj.category ≠ none := by
  constructor
  · decide
  · decide

/-- C5 amended: on every change of the selected-categories list the
draft's category field is overwritten with the new selection verbatim —
the list itself whenever one is present, including the empty list, and
unset only when the selection is absent. -/
theorem C5_amended_category_overwritten_verbatim (cats : Option (List Nat))
    (s : EditTaskState) :
    (stepSetCategories cats s).editedTask.bind TaskObj.category = cats := by
  simp [stepSetCategories, categoriesEffect, jsArrayOrUndefined_id]

/-- C6 counterexample: with the name-too-long flag set, an input-change
event on the description field resets the name flag to false — the flags
are not independent. -/
theorem C6_counterexample_cross_field_reset :
    nameErrState.nameError = true
    ∧ (handleInputChange 5 350 FormField.description "ok" nameErrState).nameError = false := by
  constructor
  · decide
  · decide

/-- C6 amended: every input-change event recomputes both flags together:
afterwards the name flag is set exactly when the edited field is the name
and its length exceeds the maximum, and likewise for the description — so
editing one field (or the deadline) resets the other field's flag to
false. -/
theorem C6_amended_flags_recomputed_jointly (nMax dMax : Nat) (f : FormField)
    (v : String) (s : EditTaskState) :
    ((handleInputChange nMax dMax f v s).nameError = true
      ↔ (f = FormField.name ∧ v.length > nMax))
    ∧ ((handleInputChange nMax dMax f v s).descriptionError = true
      ↔ (f = FormField.description ∧ v.length > dMax)) := by
  constructor <;> simp [handleInputChange]

/-- Witness for the amended C6: a description edit after a name error. -/
theorem C6_amended_flags_recomputed_jointly_witness :
    ((handleInputChange 5 350 FormField.description "ok" nameErrState).nameError = true
      ↔ (FormField.description = FormField.name ∧ "ok".length > 5))
    ∧ ((handleInputChange 5 350 FormField.description "ok" nameErrState).descriptionError = true
      ↔ (FormField.description = FormField.description ∧ "ok".length > 350)) :=
  C6_amended_flags_recomputed_jointly 5 350 FormField.description "ok" nameErrState

/-- C7: both cancel paths — the Cancel button and the dialog
backdrop/escape dismissal — emit exactly one `onClose` and restore the
draft and the selected-categories list to the externally supplied task's
values, discarding unsaved edits. -/
theorem C7_cancel_restores_and_closes_once (s : EditTaskState) (t : TaskObj)
    (h : s.task = some t) :
    ((handleCancel s).1.editedTask = some t
      ∧ (handleCancel s).1.selectedCategories = t.category
      ∧ (handleCancel s).2 = [Out.onClose])
    ∧ ((dialogOnClose s).1.editedTask = some t
      ∧ (dialogOnClose s).1.selectedCategories = t.category
      ∧ (dialogOnClose s).2 = [Out.onClose]) := by
  refine ⟨⟨?_, ?_, rfl⟩, ?_, ?_, rfl⟩ <;>
    simp [handleCancel, dialogOnClose, categoriesEffect, spreadPrev,
          jsArrayOrUndefined_id, h]

/-- Witness for C7: cancelling after an edit that raised the name flag. -/
theorem C7_cancel_restores_and_closes_once_witness :
    ((handleCancel nameErrState).1.editedTask = some sampleTask
      ∧ (handleCancel nameErrState).1.selectedCategories = sampleTask.category
      ∧ (handleCancel nameErrState).2 = [Out.onClose])
    ∧ ((dialogOnClose nameErrState).1.editedTask = some sampleTask
      ∧ (dialogOnClose nameErrState).1.selectedCategories = sampleTask.category
      ∧ (dialogOnClose nameErrState).2 = [Out.onClose]) :=
  C7_cancel_restores_and_closes_once nameErrState sampleTask (by decide)

/-- C8: whenever the draft is present and its name is the empty string,
the Save button is disabled, regardless of every other field. -/
theorem C8_empty_name_disables_save (s : EditTaskState) (d : TaskObj)
    (h1 : s.editedTask = some d) (h2 : d.name = some "") :
    saveDisabled s = true := by
  simp [saveDisabled, h1, h2]

/-- Witness for C8: the state reached by clearing the name field. -/
theorem C8_empty_name_disables_save_witness :
    saveDisabled emptyNameState = true :=
  C8_empty_name_disables_save emptyNameState
    (setTextField FormField.name "" sampleTask) (by decide) (by decide)

/-- C9: the save handler always leaves the state equal to the old state
with `document.body.style.overflow` set to `"auto"` — the scroll unlock
happens unconditionally and nothing else changes — and whenever validation
blocks the save (absent draft or either flag set) it emits no output at
all. -/
theorem C9_save_restores_overflow_and_frames (s : EditTaskState) :
    (handleSave s).1 = { s with bodyOverflow := "auto" }
    ∧ ((s.editedTask = none ∨ s.nameError = true ∨ s.descriptionError = true)
        → (handleSave s).2 = []) := by
  constructor
  · cases h : s.editedTask <;> simp [handleSave, h]
    split <;> rfl
  · intro hb
    cases h : s.editedTask with
    | none => simp [handleSave, h]
    | some t =>
      rcases hb with hb | hb | hb
      · simp [h] at hb
      · simp [handleSave, h, hb]
      · simp [handleSave, h, hb]

/-- Witness for C9: a save blocked by the description-too-long flag. -/
theorem C9_save_restores_overflow_and_frames_witness :
    (handleSave blockedState).1 = { blockedState with bodyOverflow := "auto" }
    ∧ (handleSave blockedState).2 = [] :=
  ⟨(C9_save_restores_overflow_and_frames blockedState).1,
   (C9_save_restores_overflow_and_frames blockedState).2
     (Or.inr (Or.inr (by decide)))⟩

/-- C10: the empty-name requirement lives only in the Save button's
disabled attribute: with the draft present, an empty name, and both flags
clear, the save handler still calls `onSave` with the draft (while the
button is indeed disabled). -/
theorem C10_save_handler_accepts_empty_name (s : EditTaskState) (d : TaskObj)
    (h1 : s.editedTask = some d) (h2 : d.name = some "")
    (hn : s.nameError = false) (hd : s.descriptionError = false) :
    (handleSave s).2 = [Out.onSave d, Out.toastSuccess (some "")]
    ∧ saveDisabled s = true := by
  constructor
  · simp [handleSave, h1, hn, hd, h2]
  · simp [saveDisabled, h1, h2]

/-- Witness for C10: saving right after clearing the name field. -/
theorem C10_save_handler_accepts_empty_name_witness :
    (handleSave emptyNameState).2
      = [Out.onSave (setTextField FormField.name "" sampleTask),
         Out.toastSuccess (some "")]
    ∧ saveDisabled emptyNameState = true :=
  C10_save_handler_accepts_empty_name emptyNameState
    (setTextField FormField.name "" sampleTask)
    (by decide) (by decide) (by decide) (by decide)
